import Mathlib

/-!
Verification of the carbuilder command-dispatch and state-reconciliation layer.

Shallow embedding of:
* `src/src/lib/scene-handlers.js` — the Scene Handler Façade (validated mutations
  on the vehicle configuration, saved vehicles, batch updates, export/import).
* `src/unnamed/part_003` — the agent-path vehicle update handler
  (`applyVehicleUpdate`, `applyVehicleUpdates`, `syncVehicleState`,
  `processAgentResponse` and the per-command handlers).
* `src/src/lib/function-call-mapper.js` — the command mapper
  (`mapFunctionNameToCommandType`, `transformParameters`, `parseFunctionCall`,
  `parseFunctionCallsFromEvent`).
* `src/unnamed/part_012` — the decal click placement handler (`handleClick`).

The zustand game store and the static catalog `vehicleConfigs` are not part of
the provided sources; following the spec they are treated as external
collaborators: the store state is passed explicitly (its `setVehicle` merge
semantics are modelled from the spec), and every handler is parameterized over
an abstract `Catalog`.

JavaScript dynamic values are modelled by `JSVal`; `Option` models
absent-or-undefined fields of argument bags.  Numbers are rationals (the code
does no float-specific arithmetic on the paths verified here).
-/

namespace CarBuilder

/-- A JavaScript runtime value as it occurs in the parameter bags of this code
base: a string, a number, a boolean, the addon parameter object
`\x7btype, value\x7d` used by `applyBatchUpdates`, or `undefined`. -/
inductive JSVal where
  | str (s : String)
  | num (q : ℚ)
  | bool (b : Bool)
  | addonParams (ty val : String)
  | undef
deriving DecidableEq, Repr

/-- JavaScript truthiness of a `JSVal`: empty string, `0`, `false` and
`undefined` are falsy, objects are truthy. -/
def JSVal.truthy : JSVal → Bool
  | .str s => s ≠ ""
  | .num q => q ≠ 0
  | .bool b => b
  | .addonParams _ _ => true
  | .undef => false

/-- JavaScript `a || b` (returns `a` when truthy, else `b`). -/
def jsOr (a b : JSVal) : JSVal := if a.truthy then a else b

/-- Truthiness of an optional string (`undefined` and `""` are falsy). -/
def optStrTruthy : Option String → Bool
  | none => false
  | some s => s ≠ ""

/-- Embeds `parseFloat` on a `JSVal`; `none` models `NaN` (numeric strings are not
used on the verified paths and are modelled as `NaN`). -/
def jsToNum : JSVal → Option ℚ
  | .num q => some q
  | _ => none

/-- JavaScript `parseInt` truncation toward zero on a number. -/
def jsTrunc (q : ℚ) : ℤ := if 0 ≤ q then q.floor else q.ceil

/-- Case-insensitive hexadecimal digit. -/
def isHexDigitCI (c : Char) : Bool :=
  c.isDigit || ('a' ≤ c && c ≤ 'f') || ('A' ≤ c && c ≤ 'F')

/-- The regex `^#[0-9A-F]\x7b6\x7d$/i` used by the color validators. -/
def isHexColor (s : String) : Bool :=
  match s.data with
  | '#' :: rest => rest.length = 6 && rest.all isHexDigitCI
  | _ => false

/-- Association-list lookup, modelling a JS object keyed by identifier. -/
def assoc {α : Type} : List (String × α) → String → Option α
  | [], _ => none
  | (k, v) :: rest, key => if k = key then some v else assoc rest key

/-- Set a key in an association list (replace in place, else append),
modelling a JS object property assignment. -/
def assocSet {α : Type} : List (String × α) → String → α → List (String × α)
  | [], key, v => [(key, v)]
  | (k, w) :: rest, key, v =>
      if k = key then (k, v) :: rest else (k, w) :: assocSet rest key v

/-- Delete a key from an association list, modelling the JS `delete` operator. -/
def assocDel {α : Type} : List (String × α) → String → List (String × α)
  | [], _ => []
  | (k, w) :: rest, key => if k = key then rest else (k, w) :: assocDel rest key

/-- Addon map of a vehicle: slot name to selected option.  A `none` value
models a key explicitly assigned `undefined` (the agent addon handlers assign
the destructured parameter without checking it for `undefined`). -/
abbrev AddonMap := List (String × Option String)

/-- The `VehicleConfiguration` aggregate (scene-types.js typedef). -/
structure Vehicle where
  body : String
  lift : ℚ
  color : String
  roughness : ℚ
  wheel_offset : ℚ
  rim : String
  rim_color : String
  rim_color_secondary : String
  rim_diameter : ℚ
  rim_width : ℚ
  tire : String
  tire_diameter : ℚ
  addons : AddonMap
  spare : Bool
deriving DecidableEq, Repr

/-- A partial vehicle-configuration object: each field present or absent.
This is the shape passed to the store `setVehicle` with an object argument. -/
structure VehiclePartial where
  body : Option String := none
  lift : Option ℚ := none
  color : Option String := none
  roughness : Option ℚ := none
  wheel_offset : Option ℚ := none
  rim : Option String := none
  rim_color : Option String := none
  rim_color_secondary : Option String := none
  rim_diameter : Option ℚ := none
  rim_width : Option ℚ := none
  tire : Option String := none
  tire_diameter : Option ℚ := none
  addons : Option AddonMap := none
  spare : Option Bool := none
deriving DecidableEq, Repr

/-- The partial object with no key present. -/
def emptyPartial : VehiclePartial := {}

/-- Modelled from the spec: the game store `setVehicle` with an object argument
performs a shallow merge of the partial object into the current
`VehicleConfiguration` (State Store contract, spec section 6). -/
def mergePartial (v : Vehicle) (p : VehiclePartial) : Vehicle where
  body := p.body.getD v.body
  lift := p.lift.getD v.lift
  color := p.color.getD v.color
  roughness := p.roughness.getD v.roughness
  wheel_offset := p.wheel_offset.getD v.wheel_offset
  rim := p.rim.getD v.rim
  rim_color := p.rim_color.getD v.rim_color
  rim_color_secondary := p.rim_color_secondary.getD v.rim_color_secondary
  rim_diameter := p.rim_diameter.getD v.rim_diameter
  rim_width := p.rim_width.getD v.rim_width
  tire := p.tire.getD v.tire
  tire_diameter := p.tire_diameter.getD v.tire_diameter
  addons := p.addons.getD v.addons
  spare := p.spare.getD v.spare

/-- View a full configuration as the partial object with every key present
(the shape produced by exporting the live configuration). -/
def toPartial (v : Vehicle) : VehiclePartial where
  body := some v.body
  lift := some v.lift
  color := some v.color
  roughness := some v.roughness
  wheel_offset := some v.wheel_offset
  rim := some v.rim
  rim_color := some v.rim_color
  rim_color_secondary := some v.rim_color_secondary
  rim_diameter := some v.rim_diameter
  rim_width := some v.rim_width
  tire := some v.tire
  tire_diameter := some v.tire_diameter
  addons := some v.addons
  spare := some v.spare

/-- A partial configuration with every field present — a "full
VehicleConfiguration" snapshot in the sense of the wire envelope. -/
def VehiclePartial.IsFull (p : VehiclePartial) : Bool :=
  p.body.isSome && p.lift.isSome && p.color.isSome && p.roughness.isSome &&
  p.wheel_offset.isSome && p.rim.isSome && p.rim_color.isSome &&
  p.rim_color_secondary.isSome && p.rim_diameter.isSome && p.rim_width.isSome &&
  p.tire.isSome && p.tire_diameter.isSome && p.addons.isSome && p.spare.isSome

-- ============================================================================
-- Static catalog (`vehicleConfigs`), abstract: the handlers only read it.
-- ============================================================================

/-- One addon slot of a vehicle model: its selectable options. -/
structure AddonSlot where
  options : List (String × String)
deriving DecidableEq, Repr

/-- Catalog entry for one vehicle model. -/
structure VehicleModel where
  name : String
  make : String
  default_addons : AddonMap
  addons : List (String × AddonSlot)
deriving DecidableEq, Repr

/-- Catalog entry for a rim or tire model. -/
structure WheelInfo where
  name : String
  make : String
deriving DecidableEq, Repr

/-- The static `vehicleConfigs` catalog (read-only collaborator). -/
structure Catalog where
  vehicles : List (String × VehicleModel)
  rims : List (String × WheelInfo)
  tires : List (String × WheelInfo)
  defaults : Vehicle
deriving DecidableEq, Repr

-- ============================================================================
-- Scene Handler Façade (scene-handlers.js) — range constants and mutations.
-- Each mutation takes the current vehicle state and returns the result
-- envelope together with the (possibly unchanged) new state.
-- ============================================================================

def LIFT_MIN : ℚ := 0
def LIFT_MAX : ℚ := 6
def RIM_DIAMETER_MIN : ℚ := 15
def RIM_DIAMETER_MAX : ℚ := 20
def RIM_WIDTH_MIN : ℚ := 7
def RIM_WIDTH_MAX : ℚ := 12
def TIRE_DIAMETER_MIN : ℚ := 28
def TIRE_DIAMETER_MAX : ℚ := 40
def ROUGHNESS_MIN : ℚ := 0
def ROUGHNESS_MAX : ℚ := 1

/-- Uniform result envelope `\x7bsuccess, error?\x7d` (hint fields such as
`availableModels` are not modelled; no claim inspects them). -/
structure HRes where
  success : Bool
  error : Option String := none
deriving DecidableEq, Repr

/-- Embeds `setVehicleBody(modelId)`: rejects ids that do not resolve in the catalog
(a non-string id never resolves). -/
def setVehicleBody (C : Catalog) (modelId : JSVal) (st : Vehicle) : HRes × Vehicle :=
  match modelId with
  | .str s =>
      if (assoc C.vehicles s).isSome then
        ({ success := true }, { st with body := s })
      else
        ({ success := false, error := some ("Invalid vehicle model: " ++ s) }, st)
  | _ => ({ success := false, error := some "Invalid vehicle model" }, st)

/-- Embeds `setVehicleColor(color)`: requires the six-digit hex format. -/
def setVehicleColor (st : Vehicle) (color : JSVal) : HRes × Vehicle :=
  match color with
  | .str s =>
      if isHexColor s then ({ success := true }, { st with color := s })
      else ({ success := false, error := some ("Invalid color format: " ++ s) }, st)
  | _ => ({ success := false, error := some "Invalid color format" }, st)

/-- Embeds `setVehicleRoughness(roughness)`: numeric range [0,1]. -/
def setVehicleRoughness (st : Vehicle) (roughness : JSVal) : HRes × Vehicle :=
  match jsToNum roughness with
  | some v =>
      if v < ROUGHNESS_MIN ∨ ROUGHNESS_MAX < v then
        ({ success := false, error := some "Invalid roughness" }, st)
      else ({ success := true }, { st with roughness := v })
  | none => ({ success := false, error := some "Invalid roughness" }, st)

/-- Embeds `setVehicleLift(liftInches)`: numeric range [0,6]. -/
def setVehicleLift (st : Vehicle) (liftInches : JSVal) : HRes × Vehicle :=
  match jsToNum liftInches with
  | some v =>
      if v < LIFT_MIN ∨ LIFT_MAX < v then
        ({ success := false, error := some "Invalid lift height" }, st)
      else ({ success := true }, { st with lift := v })
  | none => ({ success := false, error := some "Invalid lift height" }, st)

/-- Embeds `setRim(rimId)`: rejects ids that do not resolve in the rim catalog. -/
def setRim (C : Catalog) (rimId : JSVal) (st : Vehicle) : HRes × Vehicle :=
  match rimId with
  | .str s =>
      if (assoc C.rims s).isSome then ({ success := true }, { st with rim := s })
      else ({ success := false, error := some ("Invalid rim model: " ++ s) }, st)
  | _ => ({ success := false, error := some "Invalid rim model" }, st)

/-- Embeds `setRimColor(color)`: hex format or the literal string "silver". -/
def setRimColor (st : Vehicle) (color : JSVal) : HRes × Vehicle :=
  match color with
  | .str s =>
      if isHexColor s = false && s ≠ "silver" then
        ({ success := false, error := some ("Invalid color format: " ++ s) }, st)
      else ({ success := true }, { st with rim_color := s })
  | _ => ({ success := false, error := some "Invalid color format" }, st)

/-- Embeds `setRimColorSecondary(color)`: hex format or "silver". -/
def setRimColorSecondary (st : Vehicle) (color : JSVal) : HRes × Vehicle :=
  match color with
  | .str s =>
      if isHexColor s = false && s ≠ "silver" then
        ({ success := false, error := some ("Invalid color format: " ++ s) }, st)
      else ({ success := true }, { st with rim_color_secondary := s })
  | _ => ({ success := false, error := some "Invalid color format" }, st)

/-- Embeds `setRimDiameter(diameter)`: `parseInt`, range [15,20]. -/
def setRimDiameter (st : Vehicle) (diameter : JSVal) : HRes × Vehicle :=
  match jsToNum diameter with
  | some q =>
      let v : ℚ := (jsTrunc q : ℤ)
      if v < RIM_DIAMETER_MIN ∨ RIM_DIAMETER_MAX < v then
        ({ success := false, error := some "Invalid rim diameter" }, st)
      else ({ success := true }, { st with rim_diameter := v })
  | none => ({ success := false, error := some "Invalid rim diameter" }, st)

/-- Embeds `setRimWidth(width)`: `parseFloat`, range [7,12]. -/
def setRimWidth (st : Vehicle) (width : JSVal) : HRes × Vehicle :=
  match jsToNum width with
  | some v =>
      if v < RIM_WIDTH_MIN ∨ RIM_WIDTH_MAX < v then
        ({ success := false, error := some "Invalid rim width" }, st)
      else ({ success := true }, { st with rim_width := v })
  | none => ({ success := false, error := some "Invalid rim width" }, st)

/-- Embeds `setTire(tireId)`: rejects ids that do not resolve in the tire catalog. -/
def setTire (C : Catalog) (tireId : JSVal) (st : Vehicle) : HRes × Vehicle :=
  match tireId with
  | .str s =>
      if (assoc C.tires s).isSome then ({ success := true }, { st with tire := s })
      else ({ success := false, error := some ("Invalid tire model: " ++ s) }, st)
  | _ => ({ success := false, error := some "Invalid tire model" }, st)

/-- Embeds `setTireDiameter(diameter)`: `parseInt`, range [28,40]. -/
def setTireDiameter (st : Vehicle) (diameter : JSVal) : HRes × Vehicle :=
  match jsToNum diameter with
  | some q =>
      let v : ℚ := (jsTrunc q : ℤ)
      if v < TIRE_DIAMETER_MIN ∨ TIRE_DIAMETER_MAX < v then
        ({ success := false, error := some "Invalid tire diameter" }, st)
      else ({ success := true }, { st with tire_diameter := v })
  | none => ({ success := false, error := some "Invalid tire diameter" }, st)

/-- Parameter object of `setVehicleAppearance`. -/
structure AppearanceParams where
  color : Option String := none
  roughness : Option ℚ := none
deriving DecidableEq, Repr

/-- The `updates`/`errors` accumulation loop of `setVehicleAppearance`. -/
def appearanceValidate (p : AppearanceParams) : VehiclePartial × List String :=
  let updates : VehiclePartial := {}
  let (updates, errors) :=
    match p.color with
    | some c =>
        if isHexColor c then ({ updates with color := some c }, ([] : List String))
        else (updates, ["Invalid color format: " ++ c])
    | none => (updates, [])
  match p.roughness with
  | some r =>
      if r < ROUGHNESS_MIN ∨ ROUGHNESS_MAX < r then
        (updates, errors ++ ["Invalid roughness"])
      else ({ updates with roughness := some r }, errors)
  | none => (updates, errors)

/-- Embeds `setVehicleAppearance(\x7bcolor, roughness\x7d)`: validates every present
field, collects all error messages, writes only when no error. -/
def setVehicleAppearance (st : Vehicle) (p : AppearanceParams) : HRes × Vehicle :=
  let (updates, errors) := appearanceValidate p
  if errors ≠ [] then
    ({ success := false, error := some (String.intercalate ", " errors) }, st)
  else if updates = emptyPartial then
    ({ success := false, error := some "No valid appearance parameters provided" }, st)
  else
    ({ success := true }, mergePartial st updates)

/-- Parameter object of `setWheelConfiguration`. -/
structure WheelParams where
  rim : Option String := none
  rim_diameter : Option ℚ := none
  rim_width : Option ℚ := none
  rim_color : Option String := none
  rim_color_secondary : Option String := none
  tire : Option String := none
  tire_diameter : Option ℚ := none
  wheel_offset : Option ℚ := none
deriving DecidableEq, Repr

/-- The `updates`/`errors` accumulation loop of `setWheelConfiguration`:
every present field is validated independently and all error messages are
collected. -/
def wheelValidate (C : Catalog) (p : WheelParams) : VehiclePartial × List String :=
  let updates : VehiclePartial := {}
  let (updates, errors) :=
    match p.rim with
    | some r =>
        if (assoc C.rims r).isSome then ({ updates with rim := some r }, ([] : List String))
        else (updates, ["Invalid rim: " ++ r])
    | none => (updates, [])
  let (updates, errors) :=
    match p.rim_diameter with
    | some q =>
        let v : ℚ := (jsTrunc q : ℤ)
        if v < RIM_DIAMETER_MIN ∨ RIM_DIAMETER_MAX < v then
          (updates, errors ++ ["Invalid rim diameter"])
        else ({ updates with rim_diameter := some v }, errors)
    | none => (updates, errors)
  let (updates, errors) :=
    match p.rim_width with
    | some v =>
        if v < RIM_WIDTH_MIN ∨ RIM_WIDTH_MAX < v then
          (updates, errors ++ ["Invalid rim width"])
        else ({ updates with rim_width := some v }, errors)
    | none => (updates, errors)
  let (updates, errors) :=
    match p.rim_color with
    | some c =>
        if isHexColor c = false && c ≠ "silver" then
          (updates, errors ++ ["Invalid rim color: " ++ c])
        else ({ updates with rim_color := some c }, errors)
    | none => (updates, errors)
  let (updates, errors) :=
    match p.rim_color_secondary with
    | some c =>
        if isHexColor c = false && c ≠ "silver" then
          (updates, errors ++ ["Invalid rim secondary color: " ++ c])
        else ({ updates with rim_color_secondary := some c }, errors)
    | none => (updates, errors)
  let (updates, errors) :=
    match p.tire with
    | some t =>
        if (assoc C.tires t).isSome then ({ updates with tire := some t }, errors)
        else (updates, errors ++ ["Invalid tire: " ++ t])
    | none => (updates, errors)
  let (updates, errors) :=
    match p.tire_diameter with
    | some q =>
        let v : ℚ := (jsTrunc q : ℤ)
        if v < TIRE_DIAMETER_MIN ∨ TIRE_DIAMETER_MAX < v then
          (updates, errors ++ ["Invalid tire diameter"])
        else ({ updates with tire_diameter := some v }, errors)
    | none => (updates, errors)
  match p.wheel_offset with
  | some v => ({ updates with wheel_offset := some v }, errors)
  | none => (updates, errors)

/-- Embeds `setWheelConfiguration(params)`: the multi-field transactional write —
on any error nothing is written, otherwise all validated fields are written
together. -/
def setWheelConfiguration (C : Catalog) (p : WheelParams) (st : Vehicle) :
    HRes × Vehicle :=
  let (updates, errors) := wheelValidate C p
  if errors ≠ [] then
    ({ success := false, error := some (String.intercalate ", " errors) }, st)
  else if updates = emptyPartial then
    ({ success := false, error := some "No valid wheel parameters provided" }, st)
  else
    ({ success := true }, mergePartial st updates)

/-- Embeds `setVehicleAddon(addonType, addonValue)`: the slot must exist for the
current body and the value must be one of that slot's options.  An unknown
current body makes the property access throw; the catch converts that to a
failure result. -/
def setVehicleAddon (C : Catalog) (addonType addonValue : Option String)
    (st : Vehicle) : HRes × Vehicle :=
  match assoc C.vehicles st.body with
  | none =>
      ({ success := false, error := some "Cannot read addons of undefined" }, st)
  | some vc =>
      match addonType with
      | none =>
          ({ success := false, error := some "Vehicle does not support addon type" }, st)
      | some ty =>
          match assoc vc.addons ty with
          | none =>
              ({ success := false,
                 error := some ("Vehicle does not support addon type: " ++ ty) }, st)
          | some slot =>
              match addonValue with
              | none => ({ success := false, error := some "Invalid addon value" }, st)
              | some v =>
                  if (assoc slot.options v).isSome then
                    ({ success := true },
                     { st with addons := assocSet st.addons ty (some v) })
                  else
                    ({ success := false,
                       error := some ("Invalid addon value: " ++ v ++ " for type: " ++ ty) }, st)

/-- Embeds `removeVehicleAddon(addonType)`: deletes the key when present; always
succeeds. -/
def removeVehicleAddon (st : Vehicle) (addonType : String) : HRes × Vehicle :=
  match assoc st.addons addonType with
  | some (some _) => ({ success := true }, { st with addons := assocDel st.addons addonType })
  | _ => ({ success := true }, st)

/-- Embeds `toggleSpareTire(enabled)`: `Boolean(enabled)`, always succeeds. -/
def toggleSpareTire (st : Vehicle) (enabled : JSVal) : HRes × Vehicle :=
  ({ success := true }, { st with spare := enabled.truthy })

/-- Embeds `resetVehicle()`: catalog defaults, keeping the current body and applying
that body's default addons. -/
def resetVehicle (C : Catalog) (st : Vehicle) : HRes × Vehicle :=
  let defaults := { C.defaults with
    body := st.body
    addons := (assoc C.vehicles st.body).elim [] VehicleModel.default_addons }
  ({ success := true }, defaults)

/-- Embeds `resetVehicleComplete()`: full factory defaults including the body (the
current state is not consulted). -/
def resetVehicleComplete (C : Catalog) (_st : Vehicle) : HRes × Vehicle :=
  let defaults := { C.defaults with
    addons := (assoc C.vehicles C.defaults.body).elim [] VehicleModel.default_addons }
  ({ success := true }, defaults)

/-- Embeds `setVehicleConfiguration(config)`: rejects a missing object and a provided
body that does not resolve in the catalog; otherwise shallow-merges the whole
object into the state. -/
def setVehicleConfiguration (C : Catalog) (config : Option VehiclePartial)
    (st : Vehicle) : HRes × Vehicle :=
  match config with
  | none => ({ success := false, error := some "Invalid configuration object" }, st)
  | some p =>
      match p.body with
      | some b =>
          if b ≠ "" && (assoc C.vehicles b).isNone then
            ({ success := false, error := some ("Invalid vehicle model: " ++ b) }, st)
          else ({ success := true }, mergePartial st p)
      | none => ({ success := true }, mergePartial st p)

/-- Embeds `exportVehicleConfiguration()`: `\x7bsuccess:true, data: currentVehicle\x7d`;
the data is the configuration object with every key present. -/
def exportVehicleConfiguration (st : Vehicle) : HRes × VehiclePartial :=
  ({ success := true }, toPartial st)

/-- Embeds `importVehicleConfiguration(config)` delegates to
`setVehicleConfiguration`. -/
def importVehicleConfiguration (C : Catalog) (config : Option VehiclePartial)
    (st : Vehicle) : HRes × Vehicle :=
  setVehicleConfiguration C config st

-- ============================================================================
-- Façade dispatch: one constructor per embedded mutation, used to state
-- properties uniformly over all Scene Handler Façade write paths.
-- ============================================================================

/-- One call to a Scene Handler Façade mutation, with its argument. -/
inductive FacadeOp where
  | vehicleBody (modelId : JSVal)
  | vehicleColor (color : JSVal)
  | vehicleRoughness (roughness : JSVal)
  | vehicleAppearance (p : AppearanceParams)
  | vehicleLift (liftInches : JSVal)
  | rimModel (rimId : JSVal)
  | rimColor (color : JSVal)
  | rimColorSecondary (color : JSVal)
  | rimDiameter (diameter : JSVal)
  | rimWidth (width : JSVal)
  | tireModel (tireId : JSVal)
  | tireDiameter (diameter : JSVal)
  | wheelConfiguration (p : WheelParams)
  | vehicleAddon (ty val : Option String)
  | removeAddon (ty : String)
  | spareTire (enabled : JSVal)
  | reset
  | resetComplete
  | vehicleConfiguration (config : Option VehiclePartial)
deriving DecidableEq, Repr

/-- Dispatch a façade mutation on the current vehicle state. -/
def runFacade (C : Catalog) : FacadeOp → Vehicle → HRes × Vehicle
  | .vehicleBody m, st => setVehicleBody C m st
  | .vehicleColor c, st => setVehicleColor st c
  | .vehicleRoughness r, st => setVehicleRoughness st r
  | .vehicleAppearance p, st => setVehicleAppearance st p
  | .vehicleLift l, st => setVehicleLift st l
  | .rimModel r, st => setRim C r st
  | .rimColor c, st => setRimColor st c
  | .rimColorSecondary c, st => setRimColorSecondary st c
  | .rimDiameter d, st => setRimDiameter st d
  | .rimWidth w, st => setRimWidth st w
  | .tireModel t, st => setTire C t st
  | .tireDiameter d, st => setTireDiameter st d
  | .wheelConfiguration p, st => setWheelConfiguration C p st
  | .vehicleAddon ty val, st => setVehicleAddon C ty val st
  | .removeAddon ty, st => removeVehicleAddon st ty
  | .spareTire e, st => toggleSpareTire st e
  | .reset, st => resetVehicle C st
  | .resetComplete, st => resetVehicleComplete C st
  | .vehicleConfiguration cfg, st => setVehicleConfiguration C cfg st

-- ============================================================================
-- Batch orchestrator: `applyBatchUpdates` (scene-handlers.js).
-- ============================================================================

/-- One item of a direct batch: `\x7boperation, params\x7d`. -/
structure Update where
  operation : String
  params : JSVal
deriving DecidableEq, Repr

/-- Per-item entry of the batch `results` array. -/
structure BatchItem where
  operation : String
  success : Bool
  error : Option String := none
deriving DecidableEq, Repr

/-- Aggregate result of `applyBatchUpdates`. -/
structure BatchRes where
  success : Bool
  total : Nat
  successCount : Nat
  failureCount : Nat
  results : List BatchItem
deriving DecidableEq, Repr

/-- Embeds `params.type` / `params.value` as read by the `setVehicleAddon` case of
the batch switch (property access on a non-object yields `undefined`). -/
def addonTypeValue : JSVal → Option String × Option String
  | .addonParams ty val => (some ty, some val)
  | _ => (none, none)

/-- The fixed allow-list switch of `applyBatchUpdates`: dispatches one item to
the façade operation named by `operation`; an unknown operation name yields a
per-item failure result, not a thrown error. -/
def applyBatchItem (C : Catalog) (u : Update) (st : Vehicle) : BatchItem × Vehicle :=
  let wrap := fun (r : HRes × Vehicle) =>
    ({ operation := u.operation, success := r.1.success, error := r.1.error }, r.2)
  match u.operation with
  | "setVehicleBody" => wrap (setVehicleBody C u.params st)
  | "setVehicleColor" => wrap (setVehicleColor st u.params)
  | "setVehicleLift" => wrap (setVehicleLift st u.params)
  | "setRim" => wrap (setRim C u.params st)
  | "setTire" => wrap (setTire C u.params st)
  | "setVehicleAddon" =>
      let (ty, val) := addonTypeValue u.params
      wrap (setVehicleAddon C ty val st)
  | "toggleSpareTire" => wrap (toggleSpareTire st u.params)
  | op =>
      ({ operation := op, success := false, error := some ("Unknown operation: " ++ op) }, st)

/-- The operation names recognized by the batch switch. -/
def knownBatchOps : List String :=
  ["setVehicleBody", "setVehicleColor", "setVehicleLift", "setRim", "setTire",
   "setVehicleAddon", "toggleSpareTire"]

/-- The loop body of `applyBatchUpdates`: every item is attempted in input
order regardless of prior failures. -/
def applyBatchGo (C : Catalog) : List Update → Vehicle → (Nat × Nat × List BatchItem) × Vehicle
  | [], st => ((0, 0, []), st)
  | u :: rest, st =>
      let (item, st1) := applyBatchItem C u st
      let ((sc, fc, items), st2) := applyBatchGo C rest st1
      (if item.success then (sc + 1, fc, item :: items) else (sc, fc + 1, item :: items), st2)

/-- Embeds `applyBatchUpdates(updates)`: aggregates
`\x7bsuccess: failureCount===0, total, successCount, failureCount, results\x7d`. -/
def applyBatchUpdates (C : Catalog) (updates : List Update) (st : Vehicle) :
    BatchRes × Vehicle :=
  let ((sc, fc, items), st1) := applyBatchGo C updates st
  ({ success := fc == 0
     total := updates.length
     successCount := sc
     failureCount := fc
     results := items }, st1)

-- ============================================================================
-- Saved vehicles (scene-handlers.js): the collection holds SavedVehicle
-- records under generated ids plus the distinguished `current` pointer, whose
-- value is a plain string.
-- ============================================================================

/-- A value stored in the saved-vehicles JS object: either a SavedVehicle
record or the string value of the `current` pointer. -/
inductive SVVal where
  | ptr (s : String)
  | record (name : String) (config : Vehicle) (timestamp : ℤ)
deriving DecidableEq, Repr

/-- JS truthiness of a saved-vehicles entry (an absent key and the empty
pointer string are falsy). -/
def svTruthy : Option SVVal → Bool
  | none => false
  | some (.ptr s) => s ≠ ""
  | some (.record _ _ _) => true

/-- Result envelope of `loadSavedVehicle`. -/
structure LoadRes where
  success : Bool
  error : Option String := none
  data : Option SVVal := none
  availableVehicles : Option (List String) := none
deriving DecidableEq, Repr

/-- Embeds `loadSavedVehicle(vehicleId)`: the existence check is a plain property
lookup `savedVehicles[vehicleId]`; on success the `current` pointer is set to
`vehicleId` (the snapshot is not copied into the live configuration). -/
def loadSavedVehicle (saved : List (String × SVVal)) (vehicleId : String) :
    LoadRes × List (String × SVVal) :=
  match assoc saved vehicleId with
  | none =>
      ({ success := false
         error := some ("Saved vehicle not found: " ++ vehicleId)
         availableVehicles := some ((saved.map Prod.fst).filter (· ≠ "current")) }, saved)
  | some v =>
      if (svTruthy (some v)) = false then
        ({ success := false
           error := some ("Saved vehicle not found: " ++ vehicleId)
           availableVehicles := some ((saved.map Prod.fst).filter (· ≠ "current")) }, saved)
      else
        ({ success := true, data := some v }, assocSet saved "current" (.ptr vehicleId))

-- ============================================================================
-- Agent-path vehicle update handler (src/unnamed/part_003).
-- ============================================================================

/-- The parameter bag of an agent `VehicleUpdateCommand`, with the fields the
per-command handlers destructure.  `lift_height` keeps its dynamic type
because `handleAdjustLift` performs a `typeof` check on it. -/
structure AgentParams where
  model_id : Option String := none
  color : Option String := none
  roughness : Option ℚ := none
  lift_height : Option JSVal := none
  rim_id : Option String := none
  secondary_color : Option String := none
  tire_id : Option String := none
  diameter : Option ℚ := none
  rim_diameter : Option ℚ := none
  rim_width : Option ℚ := none
  tire_diameter : Option ℚ := none
  bumper_type : Option String := none
  slider_type : Option String := none
  rack_type : Option String := none
  enabled : Option Bool := none
deriving DecidableEq, Repr

/-- An agent `VehicleUpdateCommand` as consumed by `applyVehicleUpdate`. -/
structure AgentCmd where
  command_type : String
  parameters : AgentParams := {}
  description : String := ""
deriving DecidableEq, Repr

/-- Embeds `handleChangeModel`: throws on a `model_id` that does not resolve in the
catalog (an absent id never resolves), else writes `body`. -/
def handleChangeModel (C : Catalog) (p : AgentParams) (st : Vehicle) :
    Except String Vehicle :=
  match p.model_id with
  | none => .error "Unknown vehicle model: undefined"
  | some mid =>
      if (assoc C.vehicles mid).isSome then .ok { st with body := mid }
      else .error ("Unknown vehicle model: " ++ mid)

/-- Embeds `handleChangeColor`: writes whichever of `color` / `roughness` is present,
with no validation of either; never throws. -/
def handleChangeColor (p : AgentParams) (st : Vehicle) : Vehicle :=
  let st := match p.color with
    | some c => { st with color := c }
    | none => st
  match p.roughness with
  | some r => { st with roughness := r }
  | none => st

/-- Embeds `handleAdjustLift`: throws unless `lift_height` is a number; no range
check. -/
def handleAdjustLift (p : AgentParams) (st : Vehicle) : Except String Vehicle :=
  match p.lift_height with
  | some (.num q) => .ok { st with lift := q }
  | _ => .error "Invalid lift_height value"

/-- Embeds `handleChangeRims`: an unknown `rim_id` is skipped with a warning; the
colors are written unvalidated; never throws. -/
def handleChangeRims (C : Catalog) (p : AgentParams) (st : Vehicle) : Vehicle :=
  let st := match p.rim_id with
    | some rid => if (assoc C.rims rid).isSome then { st with rim := rid } else st
    | none => st
  let st := match p.color with
    | some c => { st with rim_color := c }
    | none => st
  match p.secondary_color with
  | some c => { st with rim_color_secondary := c }
  | none => st

/-- Embeds `handleChangeTires`: an unknown `tire_id` is skipped with a warning; the
diameter is written unvalidated; never throws. -/
def handleChangeTires (C : Catalog) (p : AgentParams) (st : Vehicle) : Vehicle :=
  let st := match p.tire_id with
    | some tid => if (assoc C.tires tid).isSome then { st with tire := tid } else st
    | none => st
  match p.diameter with
  | some d => { st with tire_diameter := d }
  | none => st

/-- Embeds `handleChangeWheelSetup`: writes whichever dimensions are present, with no
range checks; never throws. -/
def handleChangeWheelSetup (p : AgentParams) (st : Vehicle) : Vehicle :=
  let st := match p.rim_diameter with
    | some d => { st with rim_diameter := d }
    | none => st
  let st := match p.rim_width with
    | some w => { st with rim_width := w }
    | none => st
  match p.tire_diameter with
  | some d => { st with tire_diameter := d }
  | none => st

/-- Embeds `handleAddBumper`: assigns `addons.bumper_f` the destructured
`bumper_type` (possibly `undefined`), with no catalog check; never throws. -/
def handleAddBumper (p : AgentParams) (st : Vehicle) : Vehicle :=
  { st with addons := assocSet st.addons "bumper_f" p.bumper_type }

/-- Embeds `handleAddSliders`: assigns `addons.sliders` unvalidated; never throws. -/
def handleAddSliders (p : AgentParams) (st : Vehicle) : Vehicle :=
  { st with addons := assocSet st.addons "sliders" p.slider_type }

/-- Embeds `handleAddRoofRack`: assigns `addons.rack` unvalidated; never throws. -/
def handleAddRoofRack (p : AgentParams) (st : Vehicle) : Vehicle :=
  { st with addons := assocSet st.addons "rack" p.rack_type }

/-- Embeds `handleToggleSpareTire`: assigns `spare := enabled` (an absent `enabled`
stores a falsy value); never throws. -/
def handleToggleSpareTire (p : AgentParams) (st : Vehicle) : Vehicle :=
  { st with spare := p.enabled.getD false }

/-- Embeds `handleResetVehicle`: catalog defaults keeping the current body, with that
body's default addons; never throws. -/
def handleResetVehicle (C : Catalog) (st : Vehicle) : Vehicle :=
  { C.defaults with
    body := st.body
    addons := (assoc C.vehicles st.body).elim [] VehicleModel.default_addons }

/-- The command types recognized by the `applyVehicleUpdate` switch. -/
def knownCommandTypes : List String :=
  ["change_model", "change_color", "adjust_lift", "change_rims", "change_tires",
   "change_wheel_setup", "add_bumper", "add_sliders", "add_roof_rack",
   "toggle_spare_tire", "reset_vehicle"]

/-- Embeds `applyVehicleUpdate(update)`: dispatches on `command_type`.  An unknown
command type returns `false` (skip); a handler that throws is caught and also
yields `false` — the throwing handlers throw before any write, so the state is
unchanged in both cases. -/
def applyVehicleUpdate (C : Catalog) (u : AgentCmd) (st : Vehicle) : Bool × Vehicle :=
  let r : Except String Vehicle :=
    match u.command_type with
    | "change_model" => handleChangeModel C u.parameters st
    | "change_color" => .ok (handleChangeColor u.parameters st)
    | "adjust_lift" => handleAdjustLift u.parameters st
    | "change_rims" => .ok (handleChangeRims C u.parameters st)
    | "change_tires" => .ok (handleChangeTires C u.parameters st)
    | "change_wheel_setup" => .ok (handleChangeWheelSetup u.parameters st)
    | "add_bumper" => .ok (handleAddBumper u.parameters st)
    | "add_sliders" => .ok (handleAddSliders u.parameters st)
    | "add_roof_rack" => .ok (handleAddRoofRack u.parameters st)
    | "toggle_spare_tire" => .ok (handleToggleSpareTire u.parameters st)
    | "reset_vehicle" => .ok (handleResetVehicle C st)
    | ct => .error ("Unknown command type: " ++ ct)
  match r with
  | .ok st1 => (true, st1)
  | .error _ => (false, st)

/-- Counters returned by `applyVehicleUpdates`. -/
structure UpdCounts where
  success : Nat
  failed : Nat
deriving DecidableEq, Repr

/-- Embeds `applyVehicleUpdates(updates)`: applies each command sequentially in array
order, counting successes and failures; a failure never aborts the rest. -/
def applyVehicleUpdates (C : Catalog) : List AgentCmd → Vehicle → UpdCounts × Vehicle
  | [], st => (⟨0, 0⟩, st)
  | u :: rest, st =>
      let (ok, st1) := applyVehicleUpdate C u st
      let (c, st2) := applyVehicleUpdates C rest st1
      (if ok then ⟨c.success + 1, c.failed⟩ else ⟨c.success, c.failed + 1⟩, st2)

/-- Embeds `syncVehicleState(state)`: rejects a missing object, else hands the whole
snapshot to the store `setVehicle` (a shallow merge) and reports `true`. -/
def syncVehicleState (fvs : Option VehiclePartial) (st : Vehicle) : Bool × Vehicle :=
  match fvs with
  | none => (false, st)
  | some p => (true, mergePartial st p)

/-- The structured agent response envelope
`\x7bvehicle_updates, final_vehicle_state, error\x7d`. -/
structure StructuredResponse where
  vehicle_updates : List AgentCmd := []
  final_vehicle_state : Option VehiclePartial := none
  error : Option String := none
deriving DecidableEq, Repr

/-- Embeds `processAgentResponse(structuredResponse)`: an error stops everything;
else non-empty updates are applied sequentially and, when any failed and a
final state is present, the snapshot is synced as a fallback, with the return
value still `failed === 0`; else a present final state is synced directly. -/
def processAgentResponse (C : Catalog) (resp : StructuredResponse) (st : Vehicle) :
    Bool × Vehicle :=
  if optStrTruthy resp.error then (false, st)
  else if resp.vehicle_updates.isEmpty = false then
    let (c, st1) := applyVehicleUpdates C resp.vehicle_updates st
    let st2 :=
      if 0 < c.failed && resp.final_vehicle_state.isSome then
        (syncVehicleState resp.final_vehicle_state st1).2
      else st1
    (c.failed == 0, st2)
  else match resp.final_vehicle_state with
    | some p => syncVehicleState (some p) st
    | none => (false, st)

-- ============================================================================
-- Function Call Mapper (src/src/lib/function-call-mapper.js).
-- ============================================================================

/-- The arbitrarily-shaped argument bag of a function call: every key the
mapper ever reads, each a dynamic value (`undef` models an absent key). -/
structure MapperArgs where
  model_id : JSVal := .undef
  color : JSVal := .undef
  roughness : JSVal := .undef
  lift_height : JSVal := .undef
  lift : JSVal := .undef
  rim_id : JSVal := .undef
  rim_color : JSVal := .undef
  secondary_color : JSVal := .undef
  rim_color_secondary : JSVal := .undef
  tire_id : JSVal := .undef
  diameter : JSVal := .undef
  tire_diameter : JSVal := .undef
  rim_diameter : JSVal := .undef
  rim_width : JSVal := .undef
  bumper_type : JSVal := .undef
  slider_type : JSVal := .undef
  rack_type : JSVal := .undef
  type : JSVal := .undef
  enabled : JSVal := .undef
  client_id : JSVal := .undef
deriving DecidableEq, Repr

/-- Embeds `mapFunctionNameToCommandType(functionName)`: the name-alias table; an
unknown name yields `null`. -/
def mapFunctionNameToCommandType (functionName : String) : Option String :=
  assoc
    [("change_vehicle_model", "change_model"),
     ("set_vehicle_model", "change_model"),
     ("switch_vehicle", "change_model"),
     ("change_vehicle_color", "change_color"),
     ("set_vehicle_color", "change_color"),
     ("change_paint", "change_color"),
     ("set_color", "change_color"),
     ("adjust_lift", "adjust_lift"),
     ("set_lift", "adjust_lift"),
     ("change_lift", "adjust_lift"),
     ("adjust_suspension", "adjust_lift"),
     ("change_rims", "change_rims"),
     ("set_rims", "change_rims"),
     ("change_wheels", "change_rims"),
     ("change_tires", "change_tires"),
     ("set_tires", "change_tires"),
     ("change_wheel_setup", "change_wheel_setup"),
     ("adjust_wheel_setup", "change_wheel_setup"),
     ("add_bumper", "add_bumper"),
     ("change_bumper", "add_bumper"),
     ("set_bumper", "add_bumper"),
     ("add_sliders", "add_sliders"),
     ("change_sliders", "add_sliders"),
     ("set_sliders", "add_sliders"),
     ("add_roof_rack", "add_roof_rack"),
     ("add_rack", "add_roof_rack"),
     ("change_rack", "add_roof_rack"),
     ("set_rack", "add_roof_rack"),
     ("toggle_spare_tire", "toggle_spare_tire"),
     ("set_spare_tire", "toggle_spare_tire"),
     ("show_spare_tire", "toggle_spare_tire"),
     ("hide_spare_tire", "toggle_spare_tire"),
     ("reset_vehicle", "reset_vehicle"),
     ("reset_to_defaults", "reset_vehicle")]
    functionName

/-- String interpolation of a dynamic value, as used by the description
builder. -/
def JSVal.display : JSVal → String
  | .str s => s
  | .num q => toString q
  | .bool b => toString b
  | .addonParams _ _ => "[object Object]"
  | .undef => "undefined"

/-- Embeds `generateDescription(functionName, args)`: human-readable description per
command type, substituting defaults for absent fields; total, never throws. -/
def generateDescription (functionName : String) (args : MapperArgs) : String :=
  match mapFunctionNameToCommandType functionName with
  | some "change_model" =>
      "Changed vehicle to " ++ (jsOr args.model_id (.str "new model")).display
  | some "change_color" =>
      if args.color.truthy && args.roughness != .undef then
        "Changed color to " ++ args.color.display ++ " with roughness " ++
          args.roughness.display
      else if args.color.truthy then "Changed color to " ++ args.color.display
      else if args.roughness != .undef then
        "Changed paint roughness to " ++ args.roughness.display
      else "Changed vehicle appearance"
  | some "adjust_lift" =>
      "Adjusted lift to " ++ (jsOr (jsOr args.lift_height args.lift) (.num 0)).display ++
        " inches"
  | some "change_rims" =>
      "Changed rims to " ++ (jsOr args.rim_id (.str "new rims")).display
  | some "change_tires" =>
      "Changed tires to " ++ (jsOr args.tire_id (.str "new tires")).display
  | some "change_wheel_setup" => "Updated wheel configuration"
  | some "add_bumper" =>
      "Set bumper to " ++ (jsOr (jsOr args.bumper_type args.type) (.str "custom")).display
  | some "add_sliders" =>
      "Set sliders to " ++ (jsOr (jsOr args.slider_type args.type) (.str "custom")).display
  | some "add_roof_rack" =>
      "Set roof rack to " ++ (jsOr (jsOr args.rack_type args.type) (.str "custom")).display
  | some "toggle_spare_tire" =>
      if args.enabled.truthy then "Enabled spare tire" else "Disabled spare tire"
  | some "reset_vehicle" => "Reset vehicle to defaults"
  | _ => "Executed " ++ functionName

/-- Embeds `transformParameters(commandType, args)`: per command type builds a fresh
parameter object, renaming fields through `||` fallback chains; an unknown
command type returns the raw bag unchanged. -/
def transformParameters (commandType : String) (args : MapperArgs) : MapperArgs :=
  match commandType with
  | "change_model" => { model_id := args.model_id }
  | "change_color" => { color := args.color, roughness := args.roughness }
  | "adjust_lift" => { lift_height := jsOr (jsOr args.lift_height args.lift) (.num 0) }
  | "change_rims" =>
      { rim_id := args.rim_id
        color := jsOr args.color args.rim_color
        secondary_color := jsOr args.secondary_color args.rim_color_secondary }
  | "change_tires" =>
      { tire_id := args.tire_id, diameter := jsOr args.diameter args.tire_diameter }
  | "change_wheel_setup" =>
      { rim_diameter := args.rim_diameter
        rim_width := args.rim_width
        tire_diameter := args.tire_diameter }
  | "add_bumper" => { bumper_type := jsOr args.bumper_type args.type }
  | "add_sliders" => { slider_type := jsOr args.slider_type args.type }
  | "add_roof_rack" => { rack_type := jsOr args.rack_type args.type }
  | "toggle_spare_tire" =>
      { enabled := if args.enabled != .undef then args.enabled else .bool true }
  | "reset_vehicle" => {}
  | _ => args

/-- A Gemini function call object `\x7bname, args, id\x7d` as received from
the event stream; any of its properties may be absent. -/
structure FunctionCall where
  name : JSVal := .undef
  args : Option MapperArgs := none
  id : JSVal := .undef
deriving DecidableEq, Repr

/-- The `VehicleUpdateCommand` produced by the mapper. -/
structure MapperCmd where
  command_type : String
  parameters : MapperArgs
  description : String
  client_id : JSVal
  function_call_id : JSVal
deriving DecidableEq, Repr

/-- Embeds `parseFunctionCall(functionCall)`: `null` on a missing object or falsy
`name`; `null` when the name does not resolve in the alias table; otherwise
composes the mapping, parameter transform and description, carrying
`args?.client_id || "default"` and the call id. -/
def parseFunctionCall (fc : Option FunctionCall) : Option MapperCmd :=
  match fc with
  | none => none
  | some f =>
      if f.name.truthy = false then none
      else
        match f.name with
        | .str n =>
            match mapFunctionNameToCommandType n with
            | none => none
            | some ct =>
                some
                  { command_type := ct
                    parameters := transformParameters ct (f.args.getD {})
                    description := generateDescription n (f.args.getD {})
                    client_id := jsOr ((f.args.map MapperArgs.client_id).getD .undef)
                      (.str "default")
                    function_call_id := f.id }
        | _ => none

/-- One element of a `parts` array; only its optional `functionCall` is read. -/
structure Part where
  functionCall : Option FunctionCall := none
deriving DecidableEq, Repr

/-- The `content` object of an event payload. -/
structure Content where
  parts : Option (List Part) := none
deriving DecidableEq, Repr

/-- An SSE event payload: a function call may sit at the top level, inside
`content.parts[]`, or inside a top-level `parts[]`. -/
structure EventData where
  functionCall : Option FunctionCall := none
  content : Option Content := none
  parts : Option (List Part) := none
deriving DecidableEq, Repr

/-- The function calls found in an optional `parts` array. -/
def partCalls (ps : Option (List Part)) : List FunctionCall :=
  (ps.getD []).filterMap Part.functionCall

/-- Every function call found anywhere in an event payload, in scan order. -/
def eventFunctionCalls (e : EventData) : List FunctionCall :=
  e.functionCall.toList ++
    (match e.content with
     | some c => partCalls c.parts
     | none => []) ++
    partCalls e.parts

/-- Embeds `parseFunctionCallsFromEvent(eventData)`: scans all three locations and
parses every call found independently; calls that fail to parse are skipped,
never fatal to the batch. -/
def parseFunctionCallsFromEvent (ev : Option EventData) : List MapperCmd :=
  match ev with
  | none => []
  | some e => (eventFunctionCalls e).filterMap (fun fc => parseFunctionCall (some fc))

end CarBuilder

-- ============================================================================
-- Decal placement (src/unnamed/part_012): the click handler updates the
-- targeted decal record from the raycast hit.  Coordinates are real numbers;
-- the raycast itself is the external renderer collaborator, so the handler is
-- modelled from the intersection result (hit point and world-space normal).
-- ============================================================================

namespace CarBuilder.Decals

open Classical in
/-- JavaScript `a || b` on numbers (`0` is falsy), as used for
`currentDecal?.rotation?.z || 0`. -/
noncomputable def jsNumOr (a b : ℝ) : ℝ := if a = 0 then b else a

/-- A 3-vector (also used for a stored Euler rotation). -/
structure V3 where
  x : ℝ
  y : ℝ
  z : ℝ

/-- A quaternion in three.js component order. -/
structure Quat where
  x : ℝ
  y : ℝ
  z : ℝ
  w : ℝ

/-- A `Decal` record of the scene state. -/
structure Decal where
  id : String
  imageUrl : String
  fileName : String
  position : V3
  rotation : V3
  scale : V3
  opacity : ℝ
  normal : V3

def dot (a b : V3) : ℝ := a.x * b.x + a.y * b.y + a.z * b.z

/-- Embeds `Number.EPSILON`. -/
noncomputable def numberEpsilon : ℝ := 2 ^ (-52 : ℤ)

open Classical in
/-- Modelled from the spec: the orientation quaternion "that rotates a fixed
reference axis onto the surface normal" is computed by the renderer library
(`THREE.Quaternion.setFromUnitVectors`), which is not part of the sources;
this is its algorithm (cross/dot construction, antiparallel special case,
then normalization). -/
noncomputable def setFromUnitVectors (vFrom vTo : V3) : Quat :=
  let r := dot vFrom vTo + 1
  let q : Quat :=
    if r < numberEpsilon then
      if |vFrom.x| > |vFrom.z| then ⟨-vFrom.y, vFrom.x, 0, 0⟩
      else ⟨0, -vFrom.z, vFrom.y, 0⟩
    else
      ⟨vFrom.y * vTo.z - vFrom.z * vTo.y,
       vFrom.z * vTo.x - vFrom.x * vTo.z,
       vFrom.x * vTo.y - vFrom.y * vTo.x, r⟩
  let l := Real.sqrt (q.x ^ 2 + q.y ^ 2 + q.z ^ 2 + q.w ^ 2)
  if l = 0 then ⟨0, 0, 0, 1⟩ else ⟨q.x / l, q.y / l, q.z / l, q.w / l⟩

open Classical in
/-- JavaScript `Math.atan2(y, x)`. -/
noncomputable def atan2 (y x : ℝ) : ℝ :=
  if 0 < x then Real.arctan (y / x)
  else if x < 0 then
    (if 0 ≤ y then Real.arctan (y / x) + Real.pi else Real.arctan (y / x) - Real.pi)
  else if 0 < y then Real.pi / 2
  else if y < 0 then -(Real.pi / 2)
  else 0

/-- Clamp to `[-1, 1]`. -/
noncomputable def clamp1 (v : ℝ) : ℝ := max (-1) (min 1 v)

open Classical in
/-- Modelled from the spec: "convert to Euler angles for storage" is
`THREE.Euler.setFromQuaternion` with the default XYZ order, which goes through
the rotation matrix of the quaternion; not part of the sources. -/
noncomputable def eulerFromQuatXYZ (q : Quat) : V3 :=
  let m11 := 1 - 2 * (q.y ^ 2 + q.z ^ 2)
  let m12 := 2 * (q.x * q.y - q.w * q.z)
  let m13 := 2 * (q.x * q.z + q.w * q.y)
  let m22 := 1 - 2 * (q.x ^ 2 + q.z ^ 2)
  let m23 := 2 * (q.y * q.z - q.w * q.x)
  let m32 := 2 * (q.y * q.z + q.w * q.x)
  let m33 := 1 - 2 * (q.x ^ 2 + q.y ^ 2)
  let ey := Real.arcsin (clamp1 m13)
  if |m13| < 0.9999999 then ⟨atan2 (-m23) m33, ey, atan2 (-m12) m11⟩
  else ⟨atan2 m32 m22, ey, 0⟩

/-- The fixed reference axis: "Decal faces along Z axis". -/
def refAxis : V3 := ⟨0, 0, 1⟩

/-- The Euler orientation the click handler derives for a world-space surface
normal. -/
noncomputable def clickOrientation (normal : V3) : V3 :=
  eulerFromQuatXYZ (setFromUnitVectors refAxis normal)

/-- Modelled from the spec: the store `updateDecal(id, patch)` merges the
patch into the decal record with this id. -/
def updateDecal (decals : List Decal) (id : String) (pos rot nrm : V3) : List Decal :=
  decals.map fun d =>
    if d.id == id then { d with position := pos, rotation := rot, normal := nrm } else d

/-- Target resolution of `handleClick`: the target starts as the selected
decal; in placement mode with at least one decal it becomes the most recently
added decal, placement mode is consumed and that decal becomes selected. -/
def clickTarget (placementMode : Bool) (selectedDecalId : Option String)
    (decals : List Decal) : Option String × Bool × Option String :=
  if placementMode && !decals.isEmpty then
    match decals.getLast? with
    | some d => (some d.id, false, some d.id)
    | none => (selectedDecalId, placementMode, selectedDecalId)
  else (selectedDecalId, placementMode, selectedDecalId)

/-- The state transition of `handleClick` for a click that hit the vehicle
mesh at world-space `point` with world-space surface normal `normal`: resolve
the target decal, then rewrite its position, x/y rotation (from the
orientation quaternion) and normal, preserving its prior z rotation.  Returns
the new decals list, placement-mode flag and selection. -/
noncomputable def handleClickHit (placementMode : Bool) (selectedDecalId : Option String)
    (decals : List Decal) (point normal : V3) :
    List Decal × Bool × Option String :=
  let (target, pm1, sel1) := clickTarget placementMode selectedDecalId decals
  match target with
  | some tid =>
      if tid ≠ "" then
        let zRotation :=
          match decals.find? (fun d => d.id == tid) with
          | some d => jsNumOr d.rotation.z 0
          | none => 0
        let o := clickOrientation normal
        (updateDecal decals tid point ⟨o.x, o.y, zRotation⟩ normal, pm1, sel1)
      else (decals, pm1, sel1)
  | none => (decals, pm1, sel1)

/-- A decal already placed once, with a user-applied z rotation of 1 radian. -/
noncomputable def spunDecal : Decal where
  id := "decal_a"
  imageUrl := "blob:logo"
  fileName := "logo.png"
  position := ⟨0, 0, 0⟩
  rotation := ⟨0, 0, 1⟩
  scale := ⟨1, 1, 1⟩
  opacity := 1
  normal := ⟨0, 0, 1⟩

/-- A repositioning hit point. -/
noncomputable def hitPoint : V3 := ⟨1, 2, 3⟩

/-- The world-space surface normal at the new hit. -/
noncomputable def hitNormal : V3 := ⟨0, 1, 0⟩

end CarBuilder.Decals

-- ============================================================================
-- Concrete fixtures: a small catalog in the shape of `vehicleConfigs`, and
-- reachability of vehicle configurations through the embedded write paths.
-- ============================================================================

namespace CarBuilder

/-- A concrete vehicle model entry for tests. -/
def jeepModel : VehicleModel where
  name := "Jeep Wrangler JKU"
  make := "Jeep"
  default_addons := [("bumper_f", some "stock")]
  addons :=
    [("bumper_f", ⟨[("stock", "Stock Bumper"), ("steel", "Steel Bumper")]⟩),
     ("sliders", ⟨[("rock", "Rock Sliders")]⟩)]

/-- A concrete catalog with one vehicle, one rim and one tire. -/
def testCatalog : Catalog where
  vehicles := [("jeep_jku", jeepModel)]
  rims := [("xd_grenade", ⟨"Grenade", "XD"⟩)]
  tires := [("bfg_km3", ⟨"KM3", "BFG"⟩)]
  defaults :=
    { body := "jeep_jku"
      lift := 0
      color := "#B91818"
      roughness := 0
      wheel_offset := 0
      rim := "xd_grenade"
      rim_color := "silver"
      rim_color_secondary := "silver"
      rim_diameter := 17
      rim_width := 10
      tire := "bfg_km3"
      tire_diameter := 32
      addons := [("bumper_f", some "stock")]
      spare := true }

/-- Vehicle configurations reachable from the catalog defaults through the
embedded write paths: façade mutations, direct batches and agent responses. -/
inductive Reach (C : Catalog) : Vehicle → Prop where
  | init : Reach C C.defaults
  | facade (op : FacadeOp) {st : Vehicle} :
      Reach C st → Reach C (runFacade C op st).2
  | batch (updates : List Update) {st : Vehicle} :
      Reach C st → Reach C (applyBatchUpdates C updates st).2
  | agent (resp : StructuredResponse) {st : Vehicle} :
      Reach C st → Reach C (processAgentResponse C resp st).2

/-- A full snapshot whose `body` does not resolve in `testCatalog`. -/
def bogusSnapshot : VehiclePartial :=
  toPartial { testCatalog.defaults with body := "bogus" }

/-- The state reached by letting the agent sync `bogusSnapshot` as its
`final_vehicle_state` (no incremental updates). -/
def bogusReachedState : Vehicle :=
  (processAgentResponse testCatalog
    { vehicle_updates := [], final_vehicle_state := some bogusSnapshot, error := none }
    testCatalog.defaults).2

/-- A three-item direct batch whose second item is invalid (lift 99 is out of
range) and whose third item sets the lift to 4. -/
def demoBatch : List Update :=
  [{ operation := "setVehicleColor", params := .str "#FFD700" },
   { operation := "setVehicleLift", params := .num 99 },
   { operation := "setVehicleLift", params := .num 4 }]

/-- An agent command with an unrecognized command type. -/
def unknownAgentCmd : AgentCmd :=
  { command_type := "frobnicate_wheels", description := "???" }

/-- A full snapshot differing from the defaults in color and lift. -/
def snapshotVehicle : Vehicle :=
  { testCatalog.defaults with color := "#123456", lift := 3 }

/-- An agent response with one failing command (unknown model id) and a full
final state snapshot. -/
def c1Response : StructuredResponse :=
  { vehicle_updates :=
      [{ command_type := "change_model"
         parameters := { model_id := some "bogus" }
         description := "Changed vehicle to bogus" }]
    final_vehicle_state := some (toPartial snapshotVehicle)
    error := none }

/-- A `change_color` agent command carrying a string that the hex format rule
rejects. -/
def badColorCmd : AgentCmd :=
  { command_type := "change_color"
    parameters := { color := some "notahex" }
    description := "Changed color to notahex" }

/-- A function call whose name is not in the alias table. -/
def frobCall : FunctionCall :=
  { name := .str "frobnicate_wheels", args := some {} }

/-- An event payload containing only the unrecognized call. -/
def frobEvent : EventData := { functionCall := some frobCall }

/-- An argument bag carrying an explicit `lift_height` of `0` together with
the alias `lift: 5`. -/
def zeroLiftArgs : MapperArgs := { lift_height := .num 0, lift := .num 5 }

/-- A saved-vehicles collection with one record and a non-empty `current`
pointer. -/
def savedFixture : List (String × SVVal) :=
  [("current", .ptr "vehicle_1"),
   ("vehicle_1", .record "My Jeep" testCatalog.defaults 0)]

end CarBuilder

-- ============================================================================
-- Theorems.  Shared helper lemmas first, then one theorem per claim.
-- ============================================================================

namespace CarBuilder

/-- Merging a full snapshot overwrites every field: the base state is
irrelevant. -/
theorem mergePartial_full_base_irrel {p : VehiclePartial} (h : p.IsFull = true)
    (a b : Vehicle) : mergePartial a p = mergePartial b p := by
  cases p
  simp only [VehiclePartial.IsFull, Bool.and_eq_true, Option.isSome_iff_exists] at h
  obtain ⟨⟨⟨⟨⟨⟨⟨⟨⟨⟨⟨⟨⟨⟨b1, rfl⟩, l1, rfl⟩, c1, rfl⟩, r1, rfl⟩, w1, rfl⟩, ri1, rfl⟩,
    rc1, rfl⟩, rs1, rfl⟩, rd1, rfl⟩, rw1, rfl⟩, t1, rfl⟩, td1, rfl⟩, a1, rfl⟩, s1, rfl⟩ := h
  rfl

/-- Merging the full view of a state into itself is the identity. -/
theorem mergePartial_toPartial (v : Vehicle) : mergePartial v (toPartial v) = v := rfl

/-- Setting a key makes it resolve to the new value. -/
theorem assoc_assocSet {α : Type} (l : List (String × α)) (k : String) (v : α) :
    assoc (assocSet l k v) k = some v := by
  induction l with
  | nil => simp [assocSet, assoc]
  | cons hd tl ih =>
      obtain ⟨a, b⟩ := hd
      by_cases h : a = k
      · simp [assocSet, h, assoc]
      · simp [assocSet, h, assoc, ih]

/-- Every façade mutation either succeeds or leaves the state untouched. -/
theorem runFacade_success_or_unchanged (C : Catalog) (op : FacadeOp) (st : Vehicle) :
    (runFacade C op st).1.success = true ∨ (runFacade C op st).2 = st := by
  cases op <;>
    simp only [runFacade, setVehicleBody, setVehicleColor, setVehicleRoughness,
      setVehicleAppearance, setVehicleLift, setRim, setRimColor, setRimColorSecondary,
      setRimDiameter, setRimWidth, setTire, setTireDiameter, setWheelConfiguration,
      setVehicleAddon, removeVehicleAddon, toggleSpareTire, resetVehicle,
      resetVehicleComplete, setVehicleConfiguration] <;>
    repeat' first
    | (left; rfl)
    | (left; trivial)
    | (right; rfl)
    | split

/-- Every façade mutation either succeeds or carries an error message. -/
theorem runFacade_success_or_error (C : Catalog) (op : FacadeOp) (st : Vehicle) :
    (runFacade C op st).1.success = true ∨ (runFacade C op st).1.error.isSome = true := by
  cases op <;>
    simp only [runFacade, setVehicleBody, setVehicleColor, setVehicleRoughness,
      setVehicleAppearance, setVehicleLift, setRim, setRimColor, setRimColorSecondary,
      setRimDiameter, setRimWidth, setTire, setTireDiameter, setWheelConfiguration,
      setVehicleAddon, removeVehicleAddon, toggleSpareTire, resetVehicle,
      resetVehicleComplete, setVehicleConfiguration] <;>
    repeat' first
    | (left; rfl)
    | (left; trivial)
    | (right; rfl)
    | split

/-- C3: Every Scene Handler Façade mutation is atomic with respect to
validation: whenever any validation check fails (the result is not a
success), the operation returns a `success:false` envelope carrying an error
message and leaves the entire VehicleConfiguration unchanged — in particular
no field of a multi-field call such as `setWheelConfiguration` is partially
applied. -/
theorem facade_atomic_validation (C : Catalog) (op : FacadeOp) (st : Vehicle)
    (h : (runFacade C op st).1.success = false) :
    (runFacade C op st).2 = st ∧ (runFacade C op st).1.error.isSome = true := by
  constructor
  · rcases runFacade_success_or_unchanged C op st with h1 | h1
    · rw [h1] at h; simp at h
    · exact h1
  · rcases runFacade_success_or_error C op st with h1 | h1
    · rw [h1] at h; simp at h
    · exact h1

/-- C3 witness: `setWheelConfiguration(\x7brim: "bad", tire_diameter: 33\x7d)`
on the default state performs no write at all — in particular the valid
`tire_diameter` is not applied — and reports an error. -/
theorem facade_atomic_validation_witness :
    (runFacade testCatalog
        (.wheelConfiguration { rim := some "bad", tire_diameter := some 33 })
        testCatalog.defaults).2 = testCatalog.defaults ∧
    (runFacade testCatalog
        (.wheelConfiguration { rim := some "bad", tire_diameter := some 33 })
        testCatalog.defaults).1.error.isSome = true :=
  facade_atomic_validation testCatalog
    (.wheelConfiguration { rim := some "bad", tire_diameter := some 33 })
    testCatalog.defaults (by decide)

/-- The batch loop counts every item exactly once: successes plus failures
equal the number of items, and one result entry is produced per item. -/
theorem applyBatchGo_counts (C : Catalog) (us : List Update) (st : Vehicle) :
    (applyBatchGo C us st).1.1 + (applyBatchGo C us st).1.2.1 = us.length ∧
    (applyBatchGo C us st).1.2.2.length = us.length := by
  induction us generalizing st with
  | nil => simp [applyBatchGo]
  | cons u rest ih =>
      rcases h1 : applyBatchItem C u st with ⟨item, st1⟩
      rcases h2 : applyBatchGo C rest st1 with ⟨⟨sc, fc, items⟩, st2⟩
      have hih := ih st1
      rw [h2] at hih
      simp only [applyBatchGo, h1, h2]
      rcases hih with ⟨hc, hl⟩
      split <;> simp_all <;> omega

/-- The batch loop never aborts: the items after a prefix are applied to the
state produced by the prefix, failures included. -/
theorem applyBatchGo_append_state (C : Catalog) (us vs : List Update) (st : Vehicle) :
    (applyBatchGo C (us ++ vs) st).2 = (applyBatchGo C vs (applyBatchGo C us st).2).2 := by
  induction us generalizing st with
  | nil => simp [applyBatchGo]
  | cons u rest ih =>
      rcases h1 : applyBatchItem C u st with ⟨item, st1⟩
      simp only [List.cons_append, applyBatchGo, h1]
      rcases h2 : applyBatchGo C (rest ++ vs) st1 with ⟨⟨sc, fc, items⟩, st2⟩
      have := ih st1
      rw [h2] at this
      rcases h3 : applyBatchGo C rest st1 with ⟨⟨sc3, fc3, items3⟩, st3⟩
      rw [h3] at this
      simp only [applyBatchGo, h3]
      simpa using this

/-- An operation name outside the batch allow-list yields the per-item
failure result and touches nothing. -/
theorem applyBatchItem_unknown (C : Catalog) (u : Update) (st : Vehicle)
    (h : u.operation ∉ knownBatchOps) :
    applyBatchItem C u st =
      ({ operation := u.operation, success := false,
         error := some ("Unknown operation: " ++ u.operation) }, st) := by
  obtain ⟨op, params⟩ := u
  simp only [knownBatchOps, List.mem_cons, List.mem_singleton, not_or] at h
  obtain ⟨h1, h2, h3, h4, h5, h6, h7⟩ := h
  simp only [applyBatchItem]
  split <;> simp_all

/-- C5: `applyBatchUpdates` attempts every item in input order regardless of
prior failures (the items after any prefix run on the state the prefix
produced), treats an unknown operation name as a per-item failure rather than
a thrown error, and reports `success ↔ failureCount = 0`, `total` equal to the
number of items, one result per item, and successes plus failures equal to the
total; on the concrete three-item batch whose second item is invalid it
reports successCount 2, failureCount 1, total 3, and the third item's effect
(lift 4) is observable in the state. -/
theorem applyBatchUpdates_contract :
    (∀ (C : Catalog) (updates : List Update) (st : Vehicle),
      (applyBatchUpdates C updates st).1.total = updates.length ∧
      (applyBatchUpdates C updates st).1.results.length = updates.length ∧
      (applyBatchUpdates C updates st).1.successCount
        + (applyBatchUpdates C updates st).1.failureCount = updates.length ∧
      ((applyBatchUpdates C updates st).1.success = true ↔
        (applyBatchUpdates C updates st).1.failureCount = 0)) ∧
    (∀ (C : Catalog) (us vs : List Update) (st : Vehicle),
      (applyBatchUpdates C (us ++ vs) st).2
        = (applyBatchUpdates C vs (applyBatchUpdates C us st).2).2) ∧
    (∀ (C : Catalog) (u : Update) (st : Vehicle), u.operation ∉ knownBatchOps →
      (applyBatchItem C u st).1.success = false ∧ (applyBatchItem C u st).2 = st) ∧
    ((applyBatchUpdates testCatalog demoBatch testCatalog.defaults).1.successCount = 2 ∧
     (applyBatchUpdates testCatalog demoBatch testCatalog.defaults).1.failureCount = 1 ∧
     (applyBatchUpdates testCatalog demoBatch testCatalog.defaults).1.total = 3 ∧
     (applyBatchUpdates testCatalog demoBatch testCatalog.defaults).1.success = false ∧
     (applyBatchUpdates testCatalog demoBatch testCatalog.defaults).2.lift = 4 ∧
     (applyBatchUpdates testCatalog demoBatch testCatalog.defaults).2.color = "#FFD700") := by
  refine ⟨?_, ?_, ?_, ?_⟩
  · intro C updates st
    have hc := applyBatchGo_counts C updates st
    rcases h : applyBatchGo C updates st with ⟨⟨sc, fc, items⟩, st1⟩
    rw [h] at hc
    refine ⟨by simp [applyBatchUpdates, h], by simp [applyBatchUpdates, h, hc.2],
      by simp [applyBatchUpdates, h, hc.1], by simp [applyBatchUpdates, h]⟩
  · intro C us vs st
    have := applyBatchGo_append_state C us vs st
    rcases h1 : applyBatchGo C (us ++ vs) st with ⟨⟨sc, fc, items⟩, st1⟩
    rcases h2 : applyBatchGo C us st with ⟨⟨sc2, fc2, items2⟩, st2⟩
    rw [h1, h2] at this
    rcases h3 : applyBatchGo C vs st2 with ⟨⟨sc3, fc3, items3⟩, st3⟩
    rw [h3] at this
    simp only [applyBatchUpdates, h1, h2, h3]
    exact this
  · intro C u st h
    rw [applyBatchItem_unknown C u st h]
    exact ⟨rfl, rfl⟩
  · decide

/-- C5 witness: the unknown-operation conjunct applied at a concrete item —
`{operation: "frobnicate", params: undefined}` fails as an item and
leaves the default state untouched. -/
theorem applyBatchUpdates_contract_witness :
    (applyBatchItem testCatalog { operation := "frobnicate", params := .undef }
        testCatalog.defaults).1.success = false ∧
    (applyBatchItem testCatalog { operation := "frobnicate", params := .undef }
        testCatalog.defaults).2 = testCatalog.defaults :=
  applyBatchUpdates_contract.2.2.1 testCatalog
    { operation := "frobnicate", params := .undef } testCatalog.defaults (by decide)

/-- An unrecognized command type makes `applyVehicleUpdate` return `false`
without touching the state (and without throwing — the function is total). -/
theorem applyVehicleUpdate_unknown (C : Catalog) (u : AgentCmd) (st : Vehicle)
    (h : u.command_type ∉ knownCommandTypes) :
    applyVehicleUpdate C u st = (false, st) := by
  obtain ⟨ct, p, d⟩ := u
  simp only [knownCommandTypes, List.mem_cons, List.mem_singleton, not_or] at h
  obtain ⟨h1, h2, h3, h4, h5, h6, h7, h8, h9, h10, h11⟩ := h
  simp only [applyVehicleUpdate]
  split <;> simp_all

/-- C2 counterexample: a batch consisting of one unrecognized command reports
`failed = 1` — the skipped command IS counted as a failure of the whole batch
(and so zero-failure overall success does not hold), contradicting the claim
that it is counted as neither success nor failure. -/
theorem unknown_command_not_counted_cex :
    (applyVehicleUpdates testCatalog [unknownAgentCmd] testCatalog.defaults).1.failed = 1 ∧
    (applyVehicleUpdates testCatalog [unknownAgentCmd] testCatalog.defaults).1.success = 0 := by
  decide

/-- C2 (amended): a command whose command_type is not recognized is skipped
without being a fatal error — the state is untouched, no exception escapes,
and the remaining commands still run — and it does not increment the success
count; but it IS counted as a failure of the batch, incrementing the failure
count and thereby falsifying the batch's zero-failure overall success. -/
theorem unknown_command_skip_counted_failed :
    (∀ (C : Catalog) (u : AgentCmd) (st : Vehicle), u.command_type ∉ knownCommandTypes →
      applyVehicleUpdate C u st = (false, st)) ∧
    (∀ (C : Catalog) (u : AgentCmd) (rest : List AgentCmd) (st : Vehicle),
      u.command_type ∉ knownCommandTypes →
      (applyVehicleUpdates C (u :: rest) st).1.success
        = (applyVehicleUpdates C rest st).1.success ∧
      (applyVehicleUpdates C (u :: rest) st).1.failed
        = (applyVehicleUpdates C rest st).1.failed + 1 ∧
      (applyVehicleUpdates C (u :: rest) st).2 = (applyVehicleUpdates C rest st).2) := by
  refine ⟨applyVehicleUpdate_unknown, ?_⟩
  intro C u rest st h
  simp only [applyVehicleUpdates, applyVehicleUpdate_unknown C u st h]
  rcases h2 : applyVehicleUpdates C rest st with ⟨c, st2⟩
  simp

/-- C2 witness: the amended claim applied to the concrete unrecognized
command `frobnicate_wheels` on the default state. -/
theorem unknown_command_skip_counted_failed_witness :
    applyVehicleUpdate testCatalog unknownAgentCmd testCatalog.defaults
      = (false, testCatalog.defaults) ∧
    (applyVehicleUpdates testCatalog [unknownAgentCmd] testCatalog.defaults).1.failed
      = (applyVehicleUpdates testCatalog ([] : List AgentCmd) testCatalog.defaults).1.failed
        + 1 :=
  ⟨unknown_command_skip_counted_failed.1 testCatalog unknownAgentCmd
      testCatalog.defaults (by decide),
   (unknown_command_skip_counted_failed.2 testCatalog unknownAgentCmd []
      testCatalog.defaults (by decide)).2.1⟩

/-- C1: when no agent error is present, the update list is non-empty, at
least one command fails to apply, and a full `final_vehicle_state` snapshot is
present, `processAgentResponse` overwrites the whole VehicleConfiguration
from the snapshot: the final state equals the snapshot applied to ANY base
state — it is an authoritative overwrite, not a merge of the partial
incremental updates with the snapshot. -/
theorem agent_fallback_overwrite (C : Catalog) (resp : StructuredResponse)
    (st : Vehicle) (fs : VehiclePartial)
    (herr : optStrTruthy resp.error = false)
    (hne : resp.vehicle_updates ≠ [])
    (hfs : resp.final_vehicle_state = some fs)
    (hfull : fs.IsFull = true)
    (hfail : 0 < (applyVehicleUpdates C resp.vehicle_updates st).1.failed) :
    ∀ w : Vehicle, (processAgentResponse C resp st).2 = mergePartial w fs := by
  intro w
  have hne2 : resp.vehicle_updates.isEmpty = false := by
    cases hv : resp.vehicle_updates with
    | nil => exact absurd hv hne
    | cons a l => simp
  rcases hr : applyVehicleUpdates C resp.vehicle_updates st with ⟨c, st1⟩
  rw [hr] at hfail
  simp only [processAgentResponse, herr, hne2, hfs, hr, syncVehicleState]
  simp only [Bool.false_eq_true, if_false]
  have hcond : (decide (0 < c.failed) && (some fs).isSome) = true := by
    simp [hfail]
  rw [hcond]
  simp only [if_true]
  exact mergePartial_full_base_irrel hfull st1 w

/-- C1 witness: the concrete envelope with one failing `change_model` command
and a full snapshot ends in exactly the snapshot state. -/
theorem agent_fallback_overwrite_witness :
    (processAgentResponse testCatalog c1Response testCatalog.defaults).2
      = mergePartial testCatalog.defaults (toPartial snapshotVehicle) :=
  agent_fallback_overwrite testCatalog c1Response testCatalog.defaults
    (toPartial snapshotVehicle) (by decide) (by decide) rfl (by decide) (by decide)
    testCatalog.defaults

/-- C4 counterexample: the agent-path `change_color` handler commits the
string "notahex" into the configuration and reports success, although the hex
format rule rejects it — an agent-path handler does commit a value the format
rules reject. -/
theorem agent_commit_validated_cex :
    (applyVehicleUpdate testCatalog badColorCmd testCatalog.defaults).1 = true ∧
    (applyVehicleUpdate testCatalog badColorCmd testCatalog.defaults).2.color
      = "notahex" ∧
    isHexColor "notahex" = false := by
  decide

/-- C4 (amended): on the agent path only the catalog identifiers are
validated at commit time — an unknown `change_model` id fails with no write,
and unknown rim/tire ids are skipped leaving the field unchanged — while the
façade path does validate at commit (a successful `setVehicleColor` implies a
hex-format color); the agent handlers for color, dimensions and addon values
commit without catalog or format checks. -/
theorem agent_id_validation (C : Catalog) (st : Vehicle) :
    (∀ (p : AgentParams) (d : String) (mid : String),
      p.model_id = some mid → assoc C.vehicles mid = none →
      applyVehicleUpdate C
        { command_type := "change_model", parameters := p, description := d } st
        = (false, st)) ∧
    (∀ (p : AgentParams) (rid : String),
      p.rim_id = some rid → assoc C.rims rid = none →
      (handleChangeRims C p st).rim = st.rim) ∧
    (∀ (p : AgentParams) (tid : String),
      p.tire_id = some tid → assoc C.tires tid = none →
      (handleChangeTires C p st).tire = st.tire) ∧
    (∀ c : JSVal, (setVehicleColor st c).1.success = true →
      ∃ sc, c = .str sc ∧ isHexColor sc = true) := by
  refine ⟨?_, ?_, ?_, ?_⟩
  · intro p d mid h1 h2
    simp [applyVehicleUpdate, handleChangeModel, h1, h2]
  · intro p rid h1 h2
    simp only [handleChangeRims, h1, h2]
    cases p.color <;> cases p.secondary_color <;> simp
  · intro p tid h1 h2
    simp only [handleChangeTires, h1, h2]
    cases p.diameter <;> simp
  · intro c h
    cases c with
    | str sc =>
        refine ⟨sc, rfl, ?_⟩
        by_cases hh : isHexColor sc
        · exact hh
        · simp [setVehicleColor, hh] at h
    | num q => simp [setVehicleColor] at h
    | bool b => simp [setVehicleColor] at h
    | addonParams a b => simp [setVehicleColor] at h
    | undef => simp [setVehicleColor] at h

/-- C4 witness: the amended claim at concrete inputs — an unknown model id on
the agent path fails with no write, and a non-hex color cannot succeed
through the façade. -/
theorem agent_id_validation_witness :
    applyVehicleUpdate testCatalog
      { command_type := "change_model", parameters := { model_id := some "bogus" },
        description := "switch" } testCatalog.defaults
      = (false, testCatalog.defaults) ∧
    (handleChangeRims testCatalog { rim_id := some "nope" } testCatalog.defaults).rim
      = testCatalog.defaults.rim :=
  ⟨(agent_id_validation testCatalog testCatalog.defaults).1
      { model_id := some "bogus" } "switch" "bogus" rfl (by decide),
   (agent_id_validation testCatalog testCatalog.defaults).2.1
      { rim_id := some "nope" } "nope" rfl (by decide)⟩

/-- C6 counterexample: with `{lift_height: 0, lift: 5}` the transform
yields `lift_height = 5` — the explicitly provided `0` does NOT win over the
later alias, because the chain uses JavaScript `||` (falsy coalescing), not
null coalescing. -/
theorem transform_zero_falls_through_cex :
    (transformParameters "adjust_lift" zeroLiftArgs).lift_height = .num 5 ∧
    JSVal.num 5 ≠ JSVal.num 0 := by
  decide

/-- C6 (amended): the fallback chains are first-TRUTHY-match-wins (JavaScript
`||`): `lift_height` is taken when truthy, else `lift` when truthy, else `0`;
an explicit falsy value such as `0` falls through to the later alias; and an
unknown command_type returns the raw argument bag unchanged. -/
theorem transform_truthy_fallback :
    (∀ (args : MapperArgs) (v : JSVal), args.lift_height = v → v.truthy = true →
      (transformParameters "adjust_lift" args).lift_height = v) ∧
    (∀ (args : MapperArgs) (v : JSVal), args.lift_height.truthy = false →
      args.lift = v → v.truthy = true →
      (transformParameters "adjust_lift" args).lift_height = v) ∧
    (∀ args : MapperArgs, args.lift_height.truthy = false → args.lift.truthy = false →
      (transformParameters "adjust_lift" args).lift_height = .num 0) ∧
    (∀ (ct : String) (args : MapperArgs), ct ∉ knownCommandTypes →
      transformParameters ct args = args) := by
  refine ⟨?_, ?_, ?_, ?_⟩
  · intro args v h ht
    simp [transformParameters, jsOr, h, ht]
  · intro args v h0 h ht
    simp [transformParameters, jsOr, h0, h, ht]
  · intro args h0 h1
    simp [transformParameters, jsOr, h0, h1]
  · intro ct args h
    simp only [knownCommandTypes, List.mem_cons, List.mem_singleton, not_or] at h
    obtain ⟨h1, h2, h3, h4, h5, h6, h7, h8, h9, h10, h11⟩ := h
    simp only [transformParameters]
    split <;> simp_all

/-- C6 witness: the amended claim at concrete inputs — a truthy explicit
`lift_height` wins, and an unknown command type passes the bag through. -/
theorem transform_truthy_fallback_witness :
    (transformParameters "adjust_lift"
      ({ lift_height := .num 2 } : MapperArgs)).lift_height = .num 2 ∧
    transformParameters "frobnicate_wheels" zeroLiftArgs = zeroLiftArgs :=
  ⟨transform_truthy_fallback.1 { lift_height := .num 2 } (.num 2) rfl (by decide),
   transform_truthy_fallback.2.2.2 "frobnicate_wheels" zeroLiftArgs (by decide)⟩

/-- C7: `parseFunctionCall` returns `null` — without throwing, the function
is total — on a missing call object, on a missing or falsy (empty) `name`,
and on a name that does not resolve in the alias table; and an event payload
all of whose calls are unrecognized parses to the empty array (individual
parse failures are skipped, not fatal). -/
theorem parse_unknown_returns_null :
    (parseFunctionCall none = none) ∧
    (∀ f : FunctionCall, f.name.truthy = false → parseFunctionCall (some f) = none) ∧
    (∀ (f : FunctionCall) (n : String), f.name = .str n →
      mapFunctionNameToCommandType n = none → parseFunctionCall (some f) = none) ∧
    (∀ e : EventData, (∀ fc ∈ eventFunctionCalls e, parseFunctionCall (some fc) = none) →
      parseFunctionCallsFromEvent (some e) = []) := by
  refine ⟨rfl, ?_, ?_, ?_⟩
  · intro f h
    simp [parseFunctionCall, h]
  · intro f n h1 h2
    simp only [parseFunctionCall, h1, h2]
    split <;> rfl
  · intro e h
    simp only [parseFunctionCallsFromEvent]
    exact List.filterMap_eq_nil_iff.mpr h

/-- C7 witness: the unknown call `frobnicate_wheels` parses to `null`, and an
event payload containing only that call parses to the empty array. -/
theorem parse_unknown_returns_null_witness :
    parseFunctionCall (some frobCall) = none ∧
    parseFunctionCallsFromEvent (some frobEvent) = [] := by
  have h1 : parseFunctionCall (some frobCall) = none :=
    parse_unknown_returns_null.2.2.1 frobCall "frobnicate_wheels" rfl (by decide)
  refine ⟨h1, parse_unknown_returns_null.2.2.2 frobEvent ?_⟩
  intro fc hfc
  have he : fc = frobCall := by
    simpa [eventFunctionCalls, frobEvent, partCalls] using hfc
  rw [he]
  exact h1

/-- C9 counterexample: a configuration with an unresolvable body is reachable
(the agent final-state sync performs no validation), and for it the
export/import round trip does NOT return a success result — the import
rejects the exported body. -/
theorem export_import_roundtrip_cex :
    Reach testCatalog bogusReachedState ∧
    (importVehicleConfiguration testCatalog
        (some (exportVehicleConfiguration bogusReachedState).2)
        bogusReachedState).1.success = false := by
  constructor
  · exact Reach.agent
      { vehicle_updates := [], final_vehicle_state := some bogusSnapshot, error := none }
      Reach.init
  · decide

/-- C9 (amended): the export/import round trip always leaves the
VehicleConfiguration unchanged, and it returns a success result whenever the
current body is empty or resolves in the catalog — which holds for every
configuration written through the validating paths, but not for snapshots
synced unvalidated from the agent. -/
theorem export_import_roundtrip (C : Catalog) (st : Vehicle) :
    (importVehicleConfiguration C (some (exportVehicleConfiguration st).2) st).2 = st ∧
    ((st.body = "" ∨ (assoc C.vehicles st.body).isSome = true) →
      (importVehicleConfiguration C
        (some (exportVehicleConfiguration st).2) st).1.success = true) := by
  simp only [importVehicleConfiguration, exportVehicleConfiguration,
    setVehicleConfiguration, toPartial]
  constructor
  · split
    · rfl
    · exact mergePartial_toPartial st
  · intro h
    split
    · rename_i hcond
      simp only [Bool.and_eq_true, decide_eq_true_eq, Option.isNone_iff_eq_none] at hcond
      rcases h with h | h
      · exact absurd h hcond.1
      · rw [hcond.2] at h
        simp at h
    · rfl

/-- C9 witness: the amended claim at the default configuration — the round
trip succeeds and is an identity on the state. -/
theorem export_import_roundtrip_witness :
    (importVehicleConfiguration testCatalog
        (some (exportVehicleConfiguration testCatalog.defaults).2)
        testCatalog.defaults).2 = testCatalog.defaults ∧
    (importVehicleConfiguration testCatalog
        (some (exportVehicleConfiguration testCatalog.defaults).2)
        testCatalog.defaults).1.success = true :=
  ⟨(export_import_roundtrip testCatalog testCatalog.defaults).1,
   (export_import_roundtrip testCatalog testCatalog.defaults).2 (Or.inr (by decide))⟩

/-- C10: when the saved-vehicles collection holds a non-empty `current`
pointer, `loadSavedVehicle("current")` does not fail with "not found": the
existence check finds the pointer entry itself, the call succeeds with the
pointer's string value as its data, and the `current` pointer is set to the
literal string "current". -/
theorem load_current_pointer (saved : List (String × SVVal)) (p : String)
    (h1 : assoc saved "current" = some (.ptr p)) (h2 : p ≠ "") :
    (loadSavedVehicle saved "current").1.success = true ∧
    (loadSavedVehicle saved "current").1.data = some (.ptr p) ∧
    assoc (loadSavedVehicle saved "current").2 "current" = some (.ptr "current") := by
  simp only [loadSavedVehicle, h1, svTruthy]
  rw [if_neg (by simp [h2])]
  exact ⟨rfl, rfl, assoc_assocSet saved "current" (.ptr "current")⟩

/-- C10 witness: on a collection with `current = "vehicle_1"`, loading
"current" succeeds, returns the string "vehicle_1" as data, and overwrites
the pointer with the literal string "current". -/
theorem load_current_pointer_witness :
    (loadSavedVehicle savedFixture "current").1.success = true ∧
    (loadSavedVehicle savedFixture "current").1.data = some (.ptr "vehicle_1") ∧
    assoc (loadSavedVehicle savedFixture "current").2 "current"
      = some (.ptr "current") :=
  load_current_pointer savedFixture "vehicle_1" (by decide) (by decide)

end CarBuilder

namespace CarBuilder.Decals

/-- JavaScript `z || 0` on a number is the identity. -/
theorem jsNumOr_zero (a : ℝ) : jsNumOr a 0 = a := by
  unfold jsNumOr
  split
  · rename_i h; rw [h]
  · rfl

/-- C8: for every decal targeted by a successful surface click, the handler
rewrites exactly the decal's position (to the hit point), its x and y
rotation components (to the Euler angles of the quaternion aligning the
reference axis with the new world-space surface normal) and its stored
normal, while the decal's prior z-axis rotation value is preserved unchanged;
all other fields (scale, opacity, image) are untouched, as is every other
decal. -/
theorem click_preserves_z (pm : Bool) (sel : Option String) (decals : List Decal)
    (point normal : V3) (tid : String) (d : Decal)
    (h1 : (clickTarget pm sel decals).1 = some tid) (h2 : tid ≠ "")
    (h3 : decals.find? (fun x => x.id == tid) = some d) :
    (handleClickHit pm sel decals point normal).1
      = updateDecal decals tid point
          ⟨(clickOrientation normal).x, (clickOrientation normal).y, d.rotation.z⟩
          normal ∧
    { d with
        position := point
        rotation := ⟨(clickOrientation normal).x, (clickOrientation normal).y,
          d.rotation.z⟩
        normal := normal } ∈ (handleClickHit pm sel decals point normal).1 := by
  have hmem : d ∈ decals := List.mem_of_find?_eq_some h3
  have hid : (d.id == tid) = true := by simpa using List.find?_some h3
  rcases ht : clickTarget pm sel decals with ⟨target, pm1, sel1⟩
  rw [ht] at h1
  simp only at h1
  subst h1
  have hmain : (handleClickHit pm sel decals point normal).1
      = updateDecal decals tid point
          ⟨(clickOrientation normal).x, (clickOrientation normal).y, d.rotation.z⟩
          normal := by
    simp only [handleClickHit, ht, h3, jsNumOr_zero]
    rw [if_pos h2]
  refine ⟨hmain, ?_⟩
  rw [hmain]
  have himg := List.mem_map_of_mem
    (fun e => if e.id == tid then
        { e with position := point
                 rotation := (⟨(clickOrientation normal).x,
                   (clickOrientation normal).y, d.rotation.z⟩ : V3)
                 normal := normal } else e) hmem
  unfold updateDecal
  simpa [hid] using himg

end CarBuilder.Decals

namespace CarBuilder.Decals

/-- C8 witness: repositioning the decal whose z rotation was set to 1 radian,
by a click at `hitPoint` with surface normal `hitNormal`, keeps the stored z
rotation at exactly 1 while position, x/y rotation and normal are rewritten. -/
theorem click_preserves_z_witness :
    ((handleClickHit false (some "decal_a") [spunDecal] hitPoint hitNormal).1
      = updateDecal [spunDecal] "decal_a" hitPoint
          ⟨(clickOrientation hitNormal).x, (clickOrientation hitNormal).y,
            spunDecal.rotation.z⟩ hitNormal ∧
    { spunDecal with
        position := hitPoint
        rotation := ⟨(clickOrientation hitNormal).x, (clickOrientation hitNormal).y,
          spunDecal.rotation.z⟩
        normal := hitNormal } ∈
      (handleClickHit false (some "decal_a") [spunDecal] hitPoint hitNormal).1) ∧
    spunDecal.rotation.z = 1 := by
  have h := click_preserves_z false (some "decal_a") [spunDecal] hitPoint hitNormal
    "decal_a" spunDecal (by simp [clickTarget]) (by decide)
    (by simp [List.find?, spunDecal])
  exact ⟨h, rfl⟩

end CarBuilder.Decals
